import Mathlib

/-
Verification of the command validation, execution, and result-shaping
pipeline of the SQL gateway (sql_mcp_server.py).

Statement text is modelled as `List Char`.  The regex deny-list of
`validate_sql_query` is embedded by a small backtracking matcher over a
pattern datatype covering exactly the constructs appearing in the nine
source patterns (literals, the \s and . character classes with * and +,
and the \b word boundary).  Character classes follow the ASCII fragment
of Python's re module, which is the fragment exercised by SQL text.
-/

namespace SqlMcp

/-- JSON-like values appearing in the response envelopes built by the
server.  `jdyn` stands for values whose exact content the model does not
track (ISO timestamps from datetime.now, rounded float sizes, and the
serialized CSV text built by the csv writer). -/
inductive JVal where
  | jbool (b : Bool)
  | jint (n : Int)
  | jstr (s : String)
  | jarr (vs : List JVal)
  | jdyn

/-- ASCII whitespace: the characters of the regex class \s and of
str.strip (ASCII fragment). -/
def pyWs (c : Char) : Bool :=
  c = ' ' || c = '\t' || c = '\n' || c = '\r' || c = '\x0b' || c = '\x0c'

/-- Word characters for the regex \b word boundary (ASCII fragment of \w). -/
def wordChar (c : Char) : Bool := c.isAlphanum || c = '_'

/-- Characters matched by the regex dot: any character except a newline. -/
def dotChar (c : Char) : Bool := !(c = '\n')

/-- Python str.strip: drop leading and trailing whitespace. -/
def pyStrip (s : List Char) : List Char :=
  ((s.dropWhile pyWs).reverse.dropWhile pyWs).reverse

/-- Python str.upper over the characters (ASCII case mapping). -/
def pyUpper (s : List Char) : List Char := s.map Char.toUpper

/-- Decidable prefix test on character lists (str.startswith). -/
def startsWithL : List Char → List Char → Bool
  | [], _ => true
  | _ :: _, [] => false
  | c :: cs, d :: ds => c = d && startsWithL cs ds

/-- One element of a regex pattern: a word boundary, a literal string,
one character of a class, or zero-or-more characters of a class. -/
inductive Pat where
  | wb
  | lit (cs : List Char)
  | one (p : Char → Bool)
  | many (p : Char → Bool)

/-- Whether an optional character (none = edge of the string) is a word
character, for the word-boundary test. -/
def isWordOpt : Option Char → Bool
  | none => false
  | some c => wordChar c

/-- The last character of `cs`, or `prev` when `cs` is empty: the
character preceding the rest of the input after a literal is consumed. -/
def lastCharOpt (cs : List Char) (prev : Option Char) : Option Char :=
  match cs.getLast? with
  | none => prev
  | some c => some c

/-- Backtracking matcher: does the pattern list match a prefix of `s`,
where `prev` is the character just before `s` in the searched string?
The fuel argument only bounds recursion depth; every call decrements it
by one, and a path through the computation either shortens the pattern
list or consumes input, so any fuel exceeding (pattern items + input
length) is never exhausted. -/
def matchesFrom : Nat → List Pat → Option Char → List Char → Bool
  | _, [], _, _ => true
  | 0, _ :: _, _, _ => false
  | fuel + 1, Pat.wb :: ps, prev, s =>
      (isWordOpt prev != isWordOpt s.head?) && matchesFrom fuel ps prev s
  | fuel + 1, Pat.lit cs :: ps, prev, s =>
      startsWithL cs s && matchesFrom fuel ps (lastCharOpt cs prev) (s.drop cs.length)
  | fuel + 1, Pat.one p :: ps, _, s =>
      match s with
      | [] => false
      | c :: rest => p c && matchesFrom fuel ps (some c) rest
  | fuel + 1, Pat.many p :: ps, prev, s =>
      matchesFrom fuel ps prev s ||
      (match s with
       | [] => false
       | c :: rest => p c && matchesFrom fuel (Pat.many p :: ps) (some c) rest)

/-- Try to match the pattern at every start position (re.search). -/
def searchAux (fuel : Nat) (ps : List Pat) : Option Char → List Char → Bool
  | prev, [] => matchesFrom fuel ps prev []
  | prev, c :: rest =>
      matchesFrom fuel ps prev (c :: rest) || searchAux fuel ps (some c) rest

/-- re.search: the pattern matches somewhere in `s`.  The fuel bound
(input length plus a constant larger than any pattern below) is never
reached, see `matchesFrom`. -/
def reSearch (ps : List Pat) (s : List Char) : Bool :=
  searchAux (s.length + 64) ps none s

def kwDROP : List Char := "DROP".data
def kwDATABASE : List Char := "DATABASE".data
def kwTABLE : List Char := "TABLE".data
def kwTRUNCATE : List Char := "TRUNCATE".data
def kwDELETE : List Char := "DELETE".data
def kwFROM : List Char := "FROM".data
def kwWHERE : List Char := "WHERE".data
def kwUPDATE : List Char := "UPDATE".data
def kwINSERT : List Char := "INSERT".data
def kwSELECT : List Char := "SELECT".data
def kwOne : List Char := "1".data
def kwEq : List Char := "=".data
def kwSemi : List Char := ";".data
def kwDashDash : List Char := "--".data
def kwXpCmdshell : List Char := "xp_cmdshell".data
def kwSpExecutesql : List Char := "sp_executesql".data

/-- Source pattern r'\bDROP\s+DATABASE\b'. -/
def patDropDatabase : List Pat :=
  [Pat.wb, Pat.lit kwDROP, Pat.one pyWs, Pat.many pyWs, Pat.lit kwDATABASE, Pat.wb]

/-- Source pattern r'\bDROP\s+TABLE\b'. -/
def patDropTable : List Pat :=
  [Pat.wb, Pat.lit kwDROP, Pat.one pyWs, Pat.many pyWs, Pat.lit kwTABLE, Pat.wb]

/-- Source pattern r'\bTRUNCATE\b'. -/
def patTruncate : List Pat := [Pat.wb, Pat.lit kwTRUNCATE, Pat.wb]

/-- Source pattern r'\bDELETE\s+FROM\b.*WHERE\s+1\s*=\s*1'. -/
def patDeleteWhere : List Pat :=
  [Pat.wb, Pat.lit kwDELETE, Pat.one pyWs, Pat.many pyWs, Pat.lit kwFROM, Pat.wb,
   Pat.many dotChar, Pat.lit kwWHERE, Pat.one pyWs, Pat.many pyWs, Pat.lit kwOne,
   Pat.many pyWs, Pat.lit kwEq, Pat.many pyWs, Pat.lit kwOne]

/-- Source pattern r'\bUPDATE\b.*WHERE\s+1\s*=\s*1'. -/
def patUpdateWhere : List Pat :=
  [Pat.wb, Pat.lit kwUPDATE, Pat.wb,
   Pat.many dotChar, Pat.lit kwWHERE, Pat.one pyWs, Pat.many pyWs, Pat.lit kwOne,
   Pat.many pyWs, Pat.lit kwEq, Pat.many pyWs, Pat.lit kwOne]

/-- Source pattern r';\s*DROP\b'. -/
def patSemiDrop : List Pat :=
  [Pat.lit kwSemi, Pat.many pyWs, Pat.lit kwDROP, Pat.wb]

/-- Source pattern r'--'. -/
def patComment : List Pat := [Pat.lit kwDashDash]

/-- Source pattern r'xp_cmdshell' (lower-case literal, as in the source). -/
def patXpCmdshell : List Pat := [Pat.lit kwXpCmdshell]

/-- Source pattern r'sp_executesql' (lower-case literal, as in the source). -/
def patSpExecutesql : List Pat := [Pat.lit kwSpExecutesql]

/-- The dangerous_patterns list of validate_sql_query, in source order. -/
def dangerousPatterns : List (List Pat) :=
  [patDropDatabase, patDropTable, patTruncate, patDeleteWhere, patUpdateWhere,
   patSemiDrop, patComment, patXpCmdshell, patSpExecutesql]

/-- The first deny-list pattern that re.search finds in
sql.upper().strip(), in list order (the loop of validate_sql_query with
its short-circuiting return). -/
def firstMatchedPattern (sql : List Char) : Option (List Pat) :=
  List.find? (fun p => reSearch p (pyStrip (pyUpper sql))) dangerousPatterns

/-- validate_sql_query: True iff no dangerous pattern matches the
upper-cased, stripped statement text. -/
def validate_sql_query (sql : List Char) : Bool :=
  (firstMatchedPattern sql).isNone

/-- validate_sql_query together with its only side effect: the
logger.warning call appends the matched pattern to the log on rejection
and leaves the log unchanged on acceptance. -/
def validateWithLog (sql : List Char) (log : List (List Pat)) :
    Bool × List (List Pat) :=
  match firstMatchedPattern sql with
  | some p => (false, log ++ [p])
  | none => (true, log)

/-- The first keyword token of a statement: the trimmed, upper-cased text
up to the first whitespace character (used to state the classifier
claims; the source itself tests prefixes, see below). -/
def firstKeyword (sql : List Char) : List Char :=
  (pyUpper (pyStrip sql)).takeWhile (fun c => !(pyWs c))

def kColumns : String := "columns"
def kRows : String := "rows"
def kRowCount : String := "row_count"
def kTruncated : String := "truncated"
def kTimestamp : String := "timestamp"
def kError : String := "error"
def kMessage : String := "message"
def kSuccess : String := "success"
def kRowsAffected : String := "rows_affected"
def kFilePath : String := "file_path"
def kRowsExported : String := "rows_exported"
def kFileSizeBytes : String := "file_size_bytes"
def kFileSizeMb : String := "file_size_mb"
def kCsvContent : String := "csv_content"
def kInstructions : String := "instructions"

def msgValidationFailed : String :=
  "Query validation failed. Potentially unsafe SQL detected."
def msgOnlySelect : String :=
  "Only SELECT queries are allowed. Use execute_dml for INSERT/UPDATE/DELETE."
def msgOnlySelectExport : String :=
  "Only SELECT queries are allowed for CSV export."
def msgOnlySelectCsv : String :=
  "Only SELECT queries are allowed for CSV download."
def msgNoResults : String :=
  "Query executed successfully with no results"
def msgNoResultsExport : String :=
  "Query returned no results to export"
def msgNoResultsCsv : String :=
  "Query returned no results to convert to CSV"
def msgInstructions : String :=
  "Claude Desktop can save this as a downloadable CSV file"
def preDbError : String := "Database error: "
def preUnexpected : String := "Unexpected error: "
def preInvalidPath : String := "Invalid file path: "
def preIoError : String := "File I/O error: "
def msgNoCredentials : String :=
  "Either use Trusted_Connection or provide USERNAME and PASSWORD"

/-- Field lookup in an envelope (the JSON object as an ordered
association list, as json.dumps receives it). -/
def jfield (env : List (String × JVal)) (k : String) : Option JVal :=
  match env with
  | [] => none
  | (k0, v) :: rest => if k0 = k then some v else jfield rest k

/-- The error envelope json.dumps({"error": msg, "timestamp": ...}). -/
def errorEnvelope (msg : String) : List (String × JVal) :=
  [(kError, JVal.jstr msg), (kTimestamp, JVal.jdyn)]

/-- The configuration surface the pipeline reads (Config.MAX_ROWS). -/
structure Config where
  MAX_ROWS : Nat

/-- Python `max_rows or Config.MAX_ROWS`: the caller value when it is
truthy (present and nonzero), the default otherwise. -/
def pyOr : Option Nat → Nat → Nat
  | none, d => d
  | some 0, d => d
  | some (n + 1), _ => n + 1

/-- format_query_result: cap the row list, report the pre-cap count and
the truncation flag.  `defaultCap` is the Config.MAX_ROWS global the
Python function reads when max_rows is falsy. -/
def format_query_result (columns : List String) (rows : List (List JVal))
    (max_rows : Option Nat) (defaultCap : Nat) : List (String × JVal) :=
  let m := pyOr max_rows defaultCap
  [(kColumns, JVal.jarr (columns.map JVal.jstr)),
   (kRows, JVal.jarr ((rows.take m).map JVal.jarr)),
   (kRowCount, JVal.jint rows.length),
   (kTruncated, JVal.jbool (decide (rows.length > m))),
   (kTimestamp, JVal.jdyn)]

/-- Outcome of get_db_connection: a connection, a pyodbc.Error raised by
pyodbc.connect, or the ValueError raised by Config.get_connection_string
when Trusted_Connection is off and no credential pair is set (that
ValueError is not a pyodbc.Error and passes through the context
manager's `except pyodbc.Error` clause). -/
inductive ConnResult where
  | ok
  | dbErr (msg : String)
  | cfgErr (msg : String)

/-- Outcome of cursor.execute on a read path: a pyodbc.Error, a cursor
with no description (no result set), or a result set of column names
and rows (each row a tuple of values). -/
inductive ExecOutcome where
  | dbErr (msg : String)
  | noDescription
  | resultSet (columns : List String) (rows : List (List JVal))

/-- The database environment one request observes: what connection
acquisition does, and what executing this request's statement does. -/
structure Db where
  conn : ConnResult
  exec : ExecOutcome

/-- Result of query_sql, together with the observable resource facts:
whether a connection was acquired and whether cursor.execute ran. -/
structure QueryOutcome where
  response : List (String × JVal)
  connAcquired : Bool
  executed : Bool

/-- query_sql: validate, require the SELECT prefix, then connect,
execute, and shape the result; every raised error is formatted into an
error envelope (pyodbc.Error and the catch-all Exception handler). -/
def query_sql (cfg : Config) (db : Db) (sql : List Char)
    (max_rows : Option Nat) : QueryOutcome :=
  if validate_sql_query sql then
    if startsWithL kwSELECT (pyUpper (pyStrip sql)) then
      match db.conn with
      | ConnResult.ok =>
        match db.exec with
        | ExecOutcome.dbErr m =>
            ⟨errorEnvelope (preDbError ++ m), true, true⟩
        | ExecOutcome.noDescription =>
            ⟨[(kMessage, JVal.jstr msgNoResults)], true, true⟩
        | ExecOutcome.resultSet cols rws =>
            ⟨format_query_result cols rws max_rows cfg.MAX_ROWS, true, true⟩
      | ConnResult.dbErr m => ⟨errorEnvelope (preDbError ++ m), false, false⟩
      | ConnResult.cfgErr m => ⟨errorEnvelope (preUnexpected ++ m), false, false⟩
    else ⟨errorEnvelope msgOnlySelect, false, false⟩
  else ⟨errorEnvelope msgValidationFailed, false, false⟩

/-- Outcome of cursor.execute for a DML statement: a pyodbc.Error or an
engine-reported cursor.rowcount. -/
inductive MutExec where
  | dbErr (msg : String)
  | affected (n : Int)

/-- The environment execute_dml observes: connection acquisition, the
execution outcome, and whether conn.commit raises a pyodbc.Error. -/
structure MutDb where
  conn : ConnResult
  exec : MutExec
  commitErr : Option String

/-- Result of execute_dml with the observable resource facts. -/
structure MutOutcome where
  response : List (String × JVal)
  connAcquired : Bool
  committed : Bool

/-- The verb restriction of execute_dml:
any(sql_upper.startswith(cmd) for cmd in ['INSERT', 'UPDATE', 'DELETE'])
on sql.strip().upper() — a prefix test, not a token test. -/
def dmlAllowed (sql : List Char) : Bool :=
  let u := pyUpper (pyStrip sql)
  startsWithL kwINSERT u || startsWithL kwUPDATE u || startsWithL kwDELETE u

def msgOnlyDml : String :=
  "Only INSERT, UPDATE, DELETE statements are allowed."

/-- The success envelope of execute_dml: success, rows_affected and
timestamp only. -/
def dmlSuccessEnvelope (n : Int) : List (String × JVal) :=
  [(kSuccess, JVal.jbool true), (kRowsAffected, JVal.jint n),
   (kTimestamp, JVal.jdyn)]

/-- execute_dml: validate, restrict the verb, connect, execute, commit.
Unlike the other tools this function has only an `except pyodbc.Error`
handler and no catch-all, so the ValueError raised during connection
acquisition when credentials are missing escapes the function: that path
is the `Except.error` result. -/
def execute_dml (db : MutDb) (sql : List Char) :
    Except String MutOutcome :=
  if validate_sql_query sql then
    if dmlAllowed sql then
      match db.conn with
      | ConnResult.ok =>
        match db.exec with
        | MutExec.dbErr m =>
            Except.ok ⟨errorEnvelope (preDbError ++ m), true, false⟩
        | MutExec.affected n =>
          match db.commitErr with
          | some m => Except.ok ⟨errorEnvelope (preDbError ++ m), true, false⟩
          | none => Except.ok ⟨dmlSuccessEnvelope n, true, true⟩
      | ConnResult.dbErr m =>
          Except.ok ⟨errorEnvelope (preDbError ++ m), false, false⟩
      | ConnResult.cfgErr m => Except.error m
    else Except.ok ⟨errorEnvelope msgOnlyDml, false, false⟩
  else Except.ok ⟨errorEnvelope msgValidationFailed, false, false⟩

/-- The filesystem environment of export_to_csv: whether the
dirname/makedirs path check raises, whether opening/writing the CSV file
raises IOError, and the byte size os.path.getsize reports afterwards. -/
structure FsEnv where
  pathErr : Option String
  openErr : Option String
  fileSize : Nat

/-- Rows written by the export loop: `if max_rows:` is Python truthiness,
so a nonzero cap selects cursor.fetchmany(max_rows) and both None and 0
select iteration over the whole cursor. -/
def exportRowsWritten (rws : List (List JVal)) (max_rows : Option Nat) : Nat :=
  match max_rows with
  | some (m + 1) => min (m + 1) rws.length
  | _ => rws.length

/-- Result of export_to_csv with the observable resource facts. -/
structure ExportOutcome where
  response : List (String × JVal)
  connAcquired : Bool
  rowsWritten : Nat

/-- The success envelope of export_to_csv. -/
def exportSuccessEnvelope (filePath : String) (n : Nat) (size : Nat)
    (cols : List String) : List (String × JVal) :=
  [(kSuccess, JVal.jbool true), (kFilePath, JVal.jstr filePath),
   (kRowsExported, JVal.jint n), (kFileSizeBytes, JVal.jint size),
   (kFileSizeMb, JVal.jdyn), (kColumns, JVal.jarr (cols.map JVal.jstr)),
   (kTimestamp, JVal.jdyn)]

/-- export_to_csv: validate, require the SELECT prefix, check the
destination path, then connect, execute and stream rows to the file.
The model places the possible IOError at file opening, before any row is
written. -/
def export_to_csv (db : Db) (sql : List Char) (filePath : String)
    (fs : FsEnv) (max_rows : Option Nat) : ExportOutcome :=
  if validate_sql_query sql then
    if startsWithL kwSELECT (pyUpper (pyStrip sql)) then
      match fs.pathErr with
      | some m => ⟨errorEnvelope (preInvalidPath ++ m), false, 0⟩
      | none =>
        match db.conn with
        | ConnResult.ok =>
          match db.exec with
          | ExecOutcome.dbErr m => ⟨errorEnvelope (preDbError ++ m), true, 0⟩
          | ExecOutcome.noDescription =>
              ⟨errorEnvelope msgNoResultsExport, true, 0⟩
          | ExecOutcome.resultSet cols rws =>
            match fs.openErr with
            | some m => ⟨errorEnvelope (preIoError ++ m), true, 0⟩
            | none =>
              let n := exportRowsWritten rws max_rows
              ⟨exportSuccessEnvelope filePath n fs.fileSize cols, true, n⟩
        | ConnResult.dbErr m => ⟨errorEnvelope (preDbError ++ m), false, 0⟩
        | ConnResult.cfgErr m => ⟨errorEnvelope (preUnexpected ++ m), false, 0⟩
    else ⟨errorEnvelope msgOnlySelectExport, false, 0⟩
  else ⟨errorEnvelope msgValidationFailed, false, 0⟩

/-- Result of query_to_csv with the observable resource facts. -/
structure CsvOutcome where
  response : List (String × JVal)
  connAcquired : Bool

/-- The success envelope of query_to_csv: the CSV text itself is a
serialized string the model does not inspect (jdyn); `rows` is the count
the fetch loop produced and `truncated` the comparison the source
computes, rows_written >= max_rows. -/
def csvSuccessEnvelope (n : Nat) (colCount : Nat) (max_rows : Nat) :
    List (String × JVal) :=
  [(kSuccess, JVal.jbool true), (kCsvContent, JVal.jdyn),
   (kRows, JVal.jint n), (kColumns, JVal.jint colCount),
   (kTruncated, JVal.jbool (decide (n ≥ max_rows))),
   (kTimestamp, JVal.jdyn), (kInstructions, JVal.jstr msgInstructions)]

/-- query_to_csv: validate, require the SELECT prefix, connect, execute,
fetch at most max_rows rows (the Python default for max_rows is 10000)
and build the CSV in memory. -/
def query_to_csv (db : Db) (sql : List Char) (max_rows : Nat) : CsvOutcome :=
  if validate_sql_query sql then
    if startsWithL kwSELECT (pyUpper (pyStrip sql)) then
      match db.conn with
      | ConnResult.ok =>
        match db.exec with
        | ExecOutcome.dbErr m => ⟨errorEnvelope (preDbError ++ m), true⟩
        | ExecOutcome.noDescription => ⟨errorEnvelope msgNoResultsCsv, true⟩
        | ExecOutcome.resultSet cols rws =>
            ⟨csvSuccessEnvelope (rws.take max_rows).length cols.length max_rows,
             true⟩
      | ConnResult.dbErr m => ⟨errorEnvelope (preDbError ++ m), false⟩
      | ConnResult.cfgErr m => ⟨errorEnvelope (preUnexpected ++ m), false⟩
    else ⟨errorEnvelope msgOnlySelectCsv, false⟩
  else ⟨errorEnvelope msgValidationFailed, false⟩

/- Concrete fixtures used by witnesses and counterexamples. -/

def colA : String := "A"
def fpOut : String := "out.csv"
def cfg1000 : Config := ⟨1000⟩
def cfg2 : Config := ⟨2⟩
def rows3 : List (List JVal) := [[JVal.jint 1], [JVal.jint 2], [JVal.jint 3]]
def dbRows3 : Db := ⟨ConnResult.ok, ExecOutcome.resultSet [colA] rows3⟩
def rowsOne : List (List JVal) := [[JVal.jint 7]]
def dbOne : Db := ⟨ConnResult.ok, ExecOutcome.resultSet [colA] rowsOne⟩
def mutDbOk : MutDb := ⟨ConnResult.ok, MutExec.affected 3, none⟩
def mutDbIns : MutDb := ⟨ConnResult.ok, MutExec.affected 1, none⟩
def mutDbNoCred : MutDb := ⟨ConnResult.cfgErr msgNoCredentials, MutExec.affected 0, none⟩
def fsOk : FsEnv := ⟨none, none, 42⟩
def sqlSelectA : List Char := "SELECT A FROM T".data
def sqlSelected : List Char := "SELECTED NAME FROM T".data
def sqlShow : List Char := "SHOW TABLES".data
def sqlUpdates : List Char := "UPDATES T SET X = 1 WHERE ID = 2".data
def sqlInsert1 : List Char := "INSERT INTO T VALUES (1)".data
def sqlDropTable : List Char := "DROP TABLE USERS".data
def sqlXp : List Char := "EXEC xp_cmdshell whoami".data
def sqlDelete5 : List Char := "DELETE FROM T WHERE ID = 5".data

/-- Claim C7: for every statement text the Validator rejects, each of the
four entry points (query_sql, execute_dml, export_to_csv, query_to_csv)
returns the validation-failure error envelope and never acquires a
database connection. -/
theorem c7_validator_reject_no_connection (cfg : Config) (db : Db)
    (mdb : MutDb) (fs : FsEnv) (sql : List Char) (fp : String)
    (mr : Option Nat) (mrc : Nat)
    (hv : validate_sql_query sql = false) :
    query_sql cfg db sql mr = ⟨errorEnvelope msgValidationFailed, false, false⟩ ∧
    execute_dml mdb sql
      = Except.ok ⟨errorEnvelope msgValidationFailed, false, false⟩ ∧
    export_to_csv db sql fp fs mr
      = ⟨errorEnvelope msgValidationFailed, false, 0⟩ ∧
    query_to_csv db sql mrc = ⟨errorEnvelope msgValidationFailed, false⟩ := by
  simp [query_sql, execute_dml, export_to_csv, query_to_csv, hv]

/-- Witness for C7 at the statement DROP TABLE USERS. -/
theorem c7_witness :
    validate_sql_query sqlDropTable = false ∧
    query_sql cfg1000 dbOne sqlDropTable none
      = ⟨errorEnvelope msgValidationFailed, false, false⟩ ∧
    execute_dml mutDbOk sqlDropTable
      = Except.ok ⟨errorEnvelope msgValidationFailed, false, false⟩ ∧
    export_to_csv dbOne sqlDropTable fpOut fsOk none
      = ⟨errorEnvelope msgValidationFailed, false, 0⟩ ∧
    query_to_csv dbOne sqlDropTable 10000
      = ⟨errorEnvelope msgValidationFailed, false⟩ := by
  refine ⟨by decide, ?_⟩
  exact c7_validator_reject_no_connection cfg1000 dbOne mutDbOk fsOk
    sqlDropTable fpOut none 10000 (by decide)

/-- Claim C8: the Validator is a pure function of the statement text: the
verdict does not depend on the logger state, re-validating after a prior
call yields the same verdict, and the stateful run agrees with the pure
validate_sql_query. -/
theorem c8_validator_pure (sql : List Char) (log1 log2 : List (List Pat)) :
    (validateWithLog sql log1).1 = (validateWithLog sql log2).1 ∧
    (validateWithLog sql (validateWithLog sql log1).2).1
      = (validateWithLog sql log1).1 ∧
    (validateWithLog sql log1).1 = validate_sql_query sql := by
  cases h : firstMatchedPattern sql <;>
    simp [validateWithLog, validate_sql_query, h]

/-- Claim C9: query_sql with a caller-supplied row cap of 0 behaves
exactly as with no cap argument (the falsy 0 is replaced by the
Config.MAX_ROWS default), and its envelope accounting uses the default
cap: rows.length = min(row_count, MAX_ROWS) and
truncated = (row_count > MAX_ROWS). -/
theorem c9_zero_cap_default (cfg : Config) (db : Db) (sql : List Char)
    (cols : List String) (rws : List (List JVal))
    (hv : validate_sql_query sql = true)
    (hs : startsWithL kwSELECT (pyUpper (pyStrip sql)) = true)
    (hc : db.conn = ConnResult.ok)
    (he : db.exec = ExecOutcome.resultSet cols rws) :
    query_sql cfg db sql (some 0) = query_sql cfg db sql none ∧
    ∃ l, jfield (query_sql cfg db sql (some 0)).response kRows
        = some (JVal.jarr l) ∧
      l.length = min rws.length cfg.MAX_ROWS ∧
      jfield (query_sql cfg db sql (some 0)).response kTruncated
        = some (JVal.jbool (decide (rws.length > cfg.MAX_ROWS))) := by
  obtain ⟨conn, exec⟩ := db
  simp only at hc he
  subst hc; subst he
  have hresp : (query_sql cfg ⟨ConnResult.ok, ExecOutcome.resultSet cols rws⟩
      sql (some 0)).response = format_query_result cols rws (some 0) cfg.MAX_ROWS := by
    simp [query_sql, hv, hs]
  refine ⟨rfl, (rws.take cfg.MAX_ROWS).map JVal.jarr, ?_, ?_, ?_⟩
  · rw [hresp]; rfl
  · simp [List.length_take, Nat.min_comm]
  · rw [hresp]; rfl

/-- Witness for C9: a 3-row result under default cap 2 with caller cap 0:
two rows are returned and the result is flagged truncated. -/
theorem c9_witness :
    validate_sql_query sqlSelectA = true ∧
    query_sql cfg2 dbRows3 sqlSelectA (some 0)
      = query_sql cfg2 dbRows3 sqlSelectA none ∧
    (∃ l, jfield (query_sql cfg2 dbRows3 sqlSelectA (some 0)).response kRows
        = some (JVal.jarr l) ∧
      l.length = min rows3.length cfg2.MAX_ROWS ∧
      jfield (query_sql cfg2 dbRows3 sqlSelectA (some 0)).response kTruncated
        = some (JVal.jbool (decide (rows3.length > cfg2.MAX_ROWS)))) := by
  have h := c9_zero_cap_default cfg2 dbRows3 sqlSelectA [colA] rows3
    (by decide) (by decide) rfl rfl
  exact ⟨by decide, h.1, h.2⟩

/-- Claim C10: export_to_csv with a caller-supplied row cap of 0 behaves
exactly as with no cap (Python truthiness makes 0 select the uncapped
branch), so the entire result set is written: rowsWritten equals the full
row count and the envelope reports it. -/
theorem c10_export_zero_cap_uncapped (db : Db) (sql : List Char)
    (fp : String) (fs : FsEnv) (cols : List String) (rws : List (List JVal)) :
    export_to_csv db sql fp fs (some 0) = export_to_csv db sql fp fs none ∧
    exportRowsWritten rws (some 0) = rws.length ∧
    (validate_sql_query sql = true →
     startsWithL kwSELECT (pyUpper (pyStrip sql)) = true →
     fs.pathErr = none → db.conn = ConnResult.ok →
     db.exec = ExecOutcome.resultSet cols rws → fs.openErr = none →
     (export_to_csv db sql fp fs (some 0)).rowsWritten = rws.length ∧
     jfield (export_to_csv db sql fp fs (some 0)).response kRowsExported
       = some (JVal.jint rws.length)) := by
  refine ⟨rfl, rfl, fun hv hs hp hc he ho => ?_⟩
  obtain ⟨conn, exec⟩ := db
  obtain ⟨pe, oe, fsz⟩ := fs
  simp only at hc he hp ho
  subst hc; subst he; subst hp; subst ho
  have hred : export_to_csv ⟨ConnResult.ok, ExecOutcome.resultSet cols rws⟩
      sql fp ⟨none, none, fsz⟩ (some 0)
      = ⟨exportSuccessEnvelope fp rws.length fsz cols, true, rws.length⟩ := by
    simp [export_to_csv, hv, hs, exportRowsWritten]
  rw [hred]
  exact ⟨rfl, rfl⟩

/-- Witness for C10: a 3-row result exported with cap 0 writes all 3 rows. -/
theorem c10_witness :
    (export_to_csv dbRows3 sqlSelectA fpOut fsOk (some 0)).rowsWritten = 3 ∧
    jfield (export_to_csv dbRows3 sqlSelectA fpOut fsOk (some 0)).response
      kRowsExported = some (JVal.jint 3) ∧
    export_to_csv dbRows3 sqlSelectA fpOut fsOk (some 0)
      = export_to_csv dbRows3 sqlSelectA fpOut fsOk none := by
  have h := c10_export_zero_cap_uncapped dbRows3 sqlSelectA fpOut fsOk
    [colA] rows3
  have h2 := h.2.2 (by decide) (by decide) rfl rfl rfl rfl
  exact ⟨h2.1, h2.2, h.1⟩

/-- Claim C1, counterexample: with a caller-supplied cap of 0 and a
one-row result, query_sql returns 1 row and truncated = false, while the
claim (effective cap = the caller-supplied max_rows) demands
rows.length = min(1, 0) = 0 and truncated = (1 > 0) = true. -/
theorem c1_counterexample :
    (∃ l, jfield (query_sql cfg1000 dbOne sqlSelectA (some 0)).response kRows
        = some (JVal.jarr l) ∧ l.length = 1) ∧
    jfield (query_sql cfg1000 dbOne sqlSelectA (some 0)).response kRowCount
      = some (JVal.jint 1) ∧
    jfield (query_sql cfg1000 dbOne sqlSelectA (some 0)).response kTruncated
      = some (JVal.jbool false) ∧
    ¬((1 : Nat) = min 1 0) ∧ ¬(false = decide ((1 : Nat) > 0)) :=
  ⟨⟨[JVal.jarr [JVal.jint 7]], rfl, rfl⟩, rfl, rfl, by decide, by decide⟩

/-- Claim C1 as amended: for every accepted SELECT statement, with
effective cap c equal to the caller-supplied max_rows when present and
nonzero and the Config.MAX_ROWS default otherwise (Python truthiness;
this is pyOr), the envelope satisfies rows.length = min(row_count, c),
row_count = total rows fetched before capping, and
truncated = (row_count > c). -/
theorem c1_amended (cfg : Config) (db : Db) (sql : List Char)
    (mr : Option Nat) (cols : List String) (rws : List (List JVal))
    (hv : validate_sql_query sql = true)
    (hs : startsWithL kwSELECT (pyUpper (pyStrip sql)) = true)
    (hc : db.conn = ConnResult.ok)
    (he : db.exec = ExecOutcome.resultSet cols rws) :
    ∃ l, jfield (query_sql cfg db sql mr).response kRows
        = some (JVal.jarr l) ∧
      l.length = min rws.length (pyOr mr cfg.MAX_ROWS) ∧
      jfield (query_sql cfg db sql mr).response kRowCount
        = some (JVal.jint rws.length) ∧
      jfield (query_sql cfg db sql mr).response kTruncated
        = some (JVal.jbool (decide (rws.length > pyOr mr cfg.MAX_ROWS))) := by
  obtain ⟨conn, exec⟩ := db
  simp only at hc he
  subst hc; subst he
  have hresp : (query_sql cfg ⟨ConnResult.ok, ExecOutcome.resultSet cols rws⟩
      sql mr).response = format_query_result cols rws mr cfg.MAX_ROWS := by
    simp [query_sql, hv, hs]
  refine ⟨(rws.take (pyOr mr cfg.MAX_ROWS)).map JVal.jarr, ?_, ?_, ?_, ?_⟩
  · rw [hresp]; rfl
  · simp [List.length_take, Nat.min_comm]
  · rw [hresp]; rfl
  · rw [hresp]; rfl

/-- Witness for amended C1: a 3-row result with caller cap 2 yields 2
rows, row_count 3 and truncated = true. -/
theorem c1_witness :
    validate_sql_query sqlSelectA = true ∧
    (∃ l, jfield (query_sql cfg1000 dbRows3 sqlSelectA (some 2)).response kRows
        = some (JVal.jarr l) ∧
      l.length = min rows3.length (pyOr (some 2) cfg1000.MAX_ROWS) ∧
      jfield (query_sql cfg1000 dbRows3 sqlSelectA (some 2)).response kRowCount
        = some (JVal.jint rows3.length) ∧
      jfield (query_sql cfg1000 dbRows3 sqlSelectA (some 2)).response kTruncated
        = some (JVal.jbool (decide (rows3.length > pyOr (some 2) cfg1000.MAX_ROWS)))) := by
  have h := c1_amended cfg1000 dbRows3 sqlSelectA (some 2) [colA] rows3
    (by decide) (by decide) rfl rfl
  exact ⟨by decide, h⟩

/-- Claim C2, code bug: the deny-list entries xp_cmdshell and
sp_executesql are searched case-sensitively in the upper-cased statement
text and therefore can never match: a statement invoking xp_cmdshell is
accepted by validate_sql_query although the raw (not upper-cased) text
does match the xp_cmdshell pattern. -/
theorem c2_dead_procedure_rule :
    validate_sql_query sqlXp = true ∧
    reSearch patXpCmdshell sqlXp = true ∧
    reSearch patXpCmdshell (pyStrip (pyUpper sqlXp)) = false := by decide

/-- Claim C3, code bug: execute_dml has no catch-all exception handler
(only `except pyodbc.Error`), so the ValueError raised during connection
acquisition when Trusted_Connection is off and no credential pair is
configured escapes the function instead of being formatted into an error
envelope; the statement below validates and is an allowed DML verb, yet
the call ends in an uncaught exception. -/
theorem c3_uncaught_valueerror :
    validate_sql_query sqlDelete5 = true ∧
    dmlAllowed sqlDelete5 = true ∧
    execute_dml mutDbNoCred sqlDelete5 = Except.error msgNoCredentials :=
  ⟨by decide, by decide, rfl⟩

/-- Claim C4, counterexample: query_to_csv with cap 1 on a result of
exactly 1 row reports truncated = true (the source compares
rows_written >= max_rows), while the claim demands
truncated = (row_count > cap) = (1 > 1) = false. -/
theorem c4_counterexample :
    jfield (query_to_csv dbOne sqlSelectA 1).response kTruncated
      = some (JVal.jbool true) ∧
    decide ((1 : Nat) > 1) = false :=
  ⟨rfl, by decide⟩

/-- Claim C4 as amended: for every accepted SELECT statement submitted to
query_to_csv with cap c, the truncated field is true iff the actual row
count is at least c (truncated = row_count >= c, the fetch loop cannot
see past the cap); in particular a result with exactly c rows is
reported as truncated. -/
theorem c4_amended (db : Db) (sql : List Char) (max_rows : Nat)
    (cols : List String) (rws : List (List JVal))
    (hv : validate_sql_query sql = true)
    (hs : startsWithL kwSELECT (pyUpper (pyStrip sql)) = true)
    (hc : db.conn = ConnResult.ok)
    (he : db.exec = ExecOutcome.resultSet cols rws) :
    jfield (query_to_csv db sql max_rows).response kTruncated
      = some (JVal.jbool (decide (rws.length ≥ max_rows))) := by
  obtain ⟨conn, exec⟩ := db
  simp only at hc he
  subst hc; subst he
  have hresp : (query_to_csv ⟨ConnResult.ok, ExecOutcome.resultSet cols rws⟩
      sql max_rows).response
      = csvSuccessEnvelope (rws.take max_rows).length cols.length max_rows := by
    simp [query_to_csv, hv, hs]
  have hred : jfield (csvSuccessEnvelope (rws.take max_rows).length
      cols.length max_rows) kTruncated
      = some (JVal.jbool (decide ((rws.take max_rows).length ≥ max_rows))) := rfl
  rw [hresp, hred]
  have hiff : (rws.take max_rows).length ≥ max_rows ↔ rws.length ≥ max_rows := by
    simp [List.length_take, ge_iff_le, Nat.le_min]
  rw [decide_eq_decide.mpr hiff]

/-- Witness for amended C4: cap 2 on a 3-row result is reported
truncated. -/
theorem c4_witness :
    jfield (query_to_csv dbRows3 sqlSelectA 2).response kTruncated
      = some (JVal.jbool (decide (rows3.length ≥ 2))) := by
  exact c4_amended dbRows3 sqlSelectA 2 [colA] rows3 (by decide) (by decide)
    rfl rfl

/-- Claim C5, counterexample: the statement SELECTED NAME FROM T has
first keyword token SELECTED, not SELECT, yet query_sql executes it
against the database and returns a non-error envelope, because the
source performs a prefix test (startswith) rather than a token test. -/
theorem c5_counterexample :
    (query_sql cfg1000 dbOne sqlSelected none).executed = true ∧
    jfield (query_sql cfg1000 dbOne sqlSelected none).response kError = none ∧
    ¬(firstKeyword sqlSelected = kwSELECT) :=
  ⟨rfl, rfl, by decide⟩

/-- Claim C5 as amended: query_sql returns an error envelope, without
executing the statement or acquiring a connection, for every input whose
trimmed upper-cased text does not start with the six characters SELECT;
equivalently, exactly the statements whose trimmed upper-cased text has
SELECT as a prefix (not necessarily as a whole token) can reach the
database through this entry point. -/
theorem c5_amended (cfg : Config) (db : Db) (sql : List Char)
    (mr : Option Nat) :
    (startsWithL kwSELECT (pyUpper (pyStrip sql)) = false →
      (query_sql cfg db sql mr).executed = false ∧
      (query_sql cfg db sql mr).connAcquired = false ∧
      (jfield (query_sql cfg db sql mr).response kError).isSome = true) ∧
    ((query_sql cfg db sql mr).executed = true →
      startsWithL kwSELECT (pyUpper (pyStrip sql)) = true) := by
  refine ⟨fun hs => ?_, fun he => ?_⟩
  · cases hv : validate_sql_query sql <;>
      simp [query_sql, hv, hs, errorEnvelope, jfield]
  · cases hs : startsWithL kwSELECT (pyUpper (pyStrip sql))
    · cases hv : validate_sql_query sql <;>
        simp [query_sql, hv, hs] at he
    · rfl

/-- Witness for amended C5: SHOW TABLES does not start with SELECT, and
query_sql rejects it with an error envelope without executing it. -/
theorem c5_witness :
    startsWithL kwSELECT (pyUpper (pyStrip sqlShow)) = false ∧
    (query_sql cfg1000 dbOne sqlShow none).executed = false ∧
    (query_sql cfg1000 dbOne sqlShow none).connAcquired = false ∧
    (jfield (query_sql cfg1000 dbOne sqlShow none).response kError).isSome
      = true := by
  have h := (c5_amended cfg1000 dbOne sqlShow none).1 (by decide)
  exact ⟨by decide, h.1, h.2.1, h.2.2⟩

/-- Claim C6, counterexample: the statement UPDATES T SET X = 1 WHERE
ID = 2 has first keyword token UPDATES, which is none of INSERT, UPDATE,
DELETE, yet execute_dml accepts it (prefix test) and returns the success
envelope. -/
theorem c6_counterexample :
    execute_dml mutDbOk sqlUpdates
      = Except.ok ⟨dmlSuccessEnvelope 3, true, true⟩ ∧
    ¬(firstKeyword sqlUpdates = kwINSERT) ∧
    ¬(firstKeyword sqlUpdates = kwUPDATE) ∧
    ¬(firstKeyword sqlUpdates = kwDELETE) :=
  ⟨rfl, by decide, by decide, by decide⟩

/-- Claim C6 as amended: a validated statement is accepted by
execute_dml iff its trimmed upper-cased text starts with one of the
prefixes INSERT, UPDATE, DELETE (a prefix test, not a token test); all
others get an error envelope without a connection, and on success the
envelope carries success = true and rows_affected equal to the
engine-reported count, carries no rows or columns fields, and the
transaction is committed. -/
theorem c6_amended (mdb : MutDb) (sql : List Char) (n : Int)
    (hv : validate_sql_query sql = true) :
    (dmlAllowed sql = false →
      execute_dml mdb sql
        = Except.ok ⟨errorEnvelope msgOnlyDml, false, false⟩) ∧
    (dmlAllowed sql = true → mdb.conn = ConnResult.ok →
      mdb.exec = MutExec.affected n → mdb.commitErr = none →
      execute_dml mdb sql = Except.ok ⟨dmlSuccessEnvelope n, true, true⟩ ∧
      jfield (dmlSuccessEnvelope n) kSuccess = some (JVal.jbool true) ∧
      jfield (dmlSuccessEnvelope n) kRowsAffected = some (JVal.jint n) ∧
      jfield (dmlSuccessEnvelope n) kRows = none ∧
      jfield (dmlSuccessEnvelope n) kColumns = none) := by
  refine ⟨fun hd => ?_, fun hd hc he hcm => ?_⟩
  · simp [execute_dml, hv, hd]
  · obtain ⟨conn, exec, cerr⟩ := mdb
    simp only at hc he hcm
    subst hc; subst he; subst hcm
    refine ⟨by simp [execute_dml, hv, hd], rfl, rfl, rfl, rfl⟩

/-- Witness for amended C6: INSERT INTO T VALUES (1) succeeds with
rows_affected 1, a committed transaction and no rows/columns fields. -/
theorem c6_witness :
    validate_sql_query sqlInsert1 = true ∧
    dmlAllowed sqlInsert1 = true ∧
    execute_dml mutDbIns sqlInsert1
      = Except.ok ⟨dmlSuccessEnvelope 1, true, true⟩ ∧
    jfield (dmlSuccessEnvelope 1) kRows = none ∧
    jfield (dmlSuccessEnvelope 1) kColumns = none := by
  have h := (c6_amended mutDbIns sqlInsert1 1 (by decide)).2 (by decide)
    rfl rfl rfl
  exact ⟨by decide, by decide, h.1, h.2.2.2.1, h.2.2.2.2⟩

end SqlMcp
